import Mathlib

/-!
# Verification of the `mover` input-automation library

Shallow embedding of the core of the `mover` Rust workspace
(`mover-core`, `mover-mouse`, `mover-keyboard`, `mover-utils`) and proofs
about it.

Modelling conventions:
* Rust `i32` coordinates are modelled as `ℤ` (the claims under study never
  exercise two's-complement wrap-around).
* Rust `f64` values are modelled as `ℚ`; every floating-point operation the
  verified paths perform (`i32 → f64` casts, multiplication by `0.0`/`1.0`,
  division of a finite value by itself) is exact in IEEE-754 double
  precision, so the rational model is faithful on those paths.
* A Rust `value as i32` float-to-integer cast truncates toward zero, which
  `truncToInt` mirrors.
* Side effects (absolute pointer moves, thread sleeps) are modelled as
  explicit event traces.
-/

namespace Mover

/-- `Point` from `mover-core/src/types.rs`: a 2D point with `x` and `y`
`i32` coordinates, modelled over `ℤ`. -/
structure Point where
  x : ℤ
  y : ℤ
deriving DecidableEq, Repr

/-- `Point::new` from `mover-core/src/types.rs`. -/
def Point.new (x y : ℤ) : Point := ⟨x, y⟩

/-- `Size` from `mover-core/src/types.rs`: screen dimensions with `width`
and `height` `i32` fields, modelled over `ℤ`. -/
structure Size where
  width : ℤ
  height : ℤ
deriving DecidableEq, Repr

/-- `Size::new` from `mover-core/src/types.rs`. -/
def Size.new (width height : ℤ) : Size := ⟨width, height⟩

/-- `MouseButton` from `mover-core/src/types.rs`. -/
inductive MouseButton where
  | Left
  | Middle
  | Right
  | Primary
  | Secondary
  | Button4
  | Button5
  | Button6
  | Button7
deriving DecidableEq, Repr

/-- The `enigo::Button` variants targeted by `Mouse::convert_button` in
`mover-mouse/src/lib.rs` (only `Left`, `Middle`, `Right` are ever
produced). -/
inductive EnigoButton where
  | Left
  | Middle
  | Right
deriving DecidableEq, Repr

/-- `PlatformError` from `mover-core/src/error.rs` (the variants reachable
from the embedded code). -/
inductive PlatformError where
  | Windows (msg : String)
  | MacOS (msg : String)
  | Linux (msg : String)
  | UnsupportedOperation (msg : String)
deriving DecidableEq, Repr

/-- `MoverError` from `mover-core/src/error.rs` (the variants reachable
from the embedded code; `IoError` is omitted since no embedded path
constructs it). -/
inductive MoverError where
  | PlatformNotSupported (msg : String)
  | InvalidCoordinates (x y : ℤ)
  | InvalidMouseButton (msg : String)
  | ScreenCaptureFailed (msg : String)
  | ImageNotFound (msg : String)
  | FailsafeTriggered (msg : String)
  | PlatformError (e : PlatformError)
  | Other (msg : String)
deriving DecidableEq, Repr

/-- Rust `value as i32` on an `f64`: truncation toward zero (the claims
never exercise the saturation bounds, so saturation is not modelled). -/
def truncToInt (q : ℚ) : ℤ :=
  if 0 ≤ q then ⌊q⌋ else ⌈q⌉

/-- Rust `f64::round`: rounding half away from zero (used only to state
the spec side of the frame-count formula). -/
def roundHalfAwayFromZero (q : ℚ) : ℤ :=
  if 0 ≤ q then ⌊q + 1/2⌋ else ⌈q - 1/2⌉

/-- One observable side effect of the mouse engine: an absolute pointer
move issued to the backend, or a blocking thread sleep (seconds). -/
inductive MouseEvent where
  | move (x y : ℤ)
  | sleep (secs : ℚ)
deriving DecidableEq, Repr

/-- `Mouse::sleep` from `mover-mouse/src/lib.rs` as the trace of thread
sleeps it performs: `if seconds > 0.0 { thread::sleep(..) }`. -/
def sleepEvents (seconds : ℚ) : List MouseEvent :=
  if seconds > 0 then [MouseEvent.sleep seconds] else []

/-- `Mouse::move_to` from `mover-mouse/src/lib.rs` as its event trace: a
single absolute move to `(x, y)`. -/
def moveToTrace (x y : ℤ) : List MouseEvent :=
  [MouseEvent.move x y]

/-- The frame count `let steps = (duration * 60.0).max(1.0) as usize;` of
`Mouse::move_to_with_tween` (`mover-mouse/src/lib.rs`): `f64::max` then a
truncating `as usize` cast (the argument is ≥ 1, so truncation is the
floor). -/
def numSteps (duration : ℚ) : ℕ :=
  (truncToInt (max (duration * 60) 1)).toNat

/-- The body of iteration `i` of the `for i in 0..=steps` loop of
`Mouse::move_to_with_tween`: one absolute move to the interpolated point,
followed by `self.sleep(duration / steps)` when `i < steps`. -/
def tweenFrame (sx sy x y : ℤ) (duration : ℚ) (tween : ℚ → ℚ) (steps i : ℕ) :
    List MouseEvent :=
  let progress : ℚ := (i : ℚ) / (steps : ℚ)
  let tweened_progress := tween progress
  let current_x := sx + truncToInt (((x - sx : ℤ) : ℚ) * tweened_progress)
  let current_y := sy + truncToInt (((y - sy : ℤ) : ℚ) * tweened_progress)
  MouseEvent.move current_x current_y ::
    (if i < steps then sleepEvents (duration / (steps : ℚ)) else [])

/-- `Mouse::move_to_with_tween` from `mover-mouse/src/lib.rs` as its event
trace, with `(sx, sy)` the pointer position read at call time
(`self.position()?`): if `duration <= 0.0` it degrades to `move_to`,
otherwise it runs the `0..=steps` frame loop. -/
def moveToWithTween (sx sy x y : ℤ) (duration : ℚ) (tween : ℚ → ℚ) :
    List MouseEvent :=
  if duration ≤ 0 then
    moveToTrace x y
  else
    ((List.range (numSteps duration + 1)).map
      (tweenFrame sx sy x y duration tween (numSteps duration))).flatten

/-- `linear_tween` from `mover-core/src/types.rs`. -/
def linear_tween (t : ℚ) : ℚ := t

/-- `ease_in_quad` from `mover-core/src/types.rs`. -/
def ease_in_quad (t : ℚ) : ℚ := t * t

/-- `ease_out_quad` from `mover-core/src/types.rs`. -/
def ease_out_quad (t : ℚ) : ℚ := t * (2 - t)

/-- `ease_in_out_quad` from `mover-core/src/types.rs`. -/
def ease_in_out_quad (t : ℚ) : ℚ :=
  if t < 1/2 then 2 * t * t else -1 + (4 - 2 * t) * t

/-- Truncation toward zero is the identity on integer values. -/
lemma truncToInt_intCast (n : ℤ) : truncToInt (n : ℚ) = n := by
  unfold truncToInt
  split
  · exact Int.floor_intCast n
  · exact Int.ceil_intCast n

/-- The loop of `move_to_with_tween` always has at least one step: the
`.max(1.0)` clamp makes the truncated value at least 1. -/
lemma numSteps_pos (duration : ℚ) : 0 < numSteps duration := by
  unfold numSteps truncToInt
  have h1 : (1 : ℚ) ≤ max (duration * 60) 1 := le_max_right _ _
  have h0 : (0 : ℚ) ≤ max (duration * 60) 1 := le_trans zero_le_one h1
  rw [if_pos h0]
  have : (1 : ℤ) ≤ ⌊max (duration * 60) 1⌋ := by
    exact_mod_cast Int.le_floor.mpr (by exact_mod_cast h1)
  omega

/-- At the final loop iteration `i = steps` the frame is a single move to
the tween-eased endpoint, with no trailing sleep. -/
lemma tweenFrame_final (sx sy x y : ℤ) (duration : ℚ) (tween : ℚ → ℚ)
    (steps : ℕ) (hs : steps ≠ 0) (ht : tween 1 = 1) :
    tweenFrame sx sy x y duration tween steps steps = [MouseEvent.move x y] := by
  unfold tweenFrame
  have hq : ((steps : ℚ)) / (steps : ℚ) = 1 := div_self (Nat.cast_ne_zero.mpr hs)
  simp only [hq, ht, mul_one, truncToInt_intCast, lt_irrefl, if_false]
  have hx : sx + (x - sx) = x := by omega
  have hy : sy + (y - sy) = y := by omega
  rw [hx, hy]

/-- C1: for every normalized tween (`f 0 = 0`, `f 1 = 1`), every positive
duration, every start position read at call time and every target,
`move_to_with_tween` issues its final absolute move exactly at the target:
the last event of its trace is the move to `(x, y)`. -/
theorem moveToWithTween_final_at_target (sx sy x y : ℤ) (duration : ℚ)
    (tween : ℚ → ℚ) (hdur : 0 < duration) (_h0 : tween 0 = 0) (h1 : tween 1 = 1) :
    (moveToWithTween sx sy x y duration tween).getLast? =
      some (MouseEvent.move x y) := by
  unfold moveToWithTween
  rw [if_neg (not_le.mpr hdur)]
  have hs : numSteps duration ≠ 0 := Nat.pos_iff_ne_zero.mp (numSteps_pos duration)
  show ((List.range (numSteps duration + 1)).map _).flatten.getLast? = _
  rw [show numSteps duration + 1 = (numSteps duration).succ from rfl,
    List.range_succ, List.map_append, List.flatten_append]
  rw [List.map_singleton, tweenFrame_final sx sy x y duration tween _ hs h1]
  simp only [List.flatten, List.append_nil]
  exact List.getLast?_concat _

/-- C1 witness: at start `(0,0)`, target `(5,7)`, duration `1`, linear
tween, the hypotheses hold and the final event is the move to `(5,7)`. -/
theorem moveToWithTween_final_at_target_witness :
    (0 : ℚ) < 1 ∧ linear_tween 0 = 0 ∧ linear_tween 1 = 1 ∧
      (moveToWithTween 0 0 5 7 1 linear_tween).getLast? =
        some (MouseEvent.move 5 7) :=
  ⟨by norm_num, rfl, rfl,
    moveToWithTween_final_at_target 0 0 5 7 1 linear_tween (by norm_num) rfl rfl⟩

/-- The trace the spec's sentence describes for `move_to_with_tween`,
parametrised by the float-to-integer function `integerize` used in the
frame-count formula `N = max(1, integerize(duration × 60))` (the spec as
written uses rounding; the code truncates): one immediate move when
`duration ≤ 0`, otherwise one absolute move per frame `i` in `0..=N` at
the interpolation of the eased progress `tween(i/N)`, with a sleep of
`duration/N` after every frame except the last. -/
def claimedFrameCount (integerize : ℚ → ℤ) (duration : ℚ) : ℕ :=
  (max 1 (integerize (duration * 60))).toNat

/-- The spec's frame `i` out of `N`: one absolute move at the
interpolation of the eased progress `tween(i/N)`, and a sleep of
`duration/N` after every frame except the last. -/
def claimedFrame (sx sy x y : ℤ) (duration : ℚ) (tween : ℚ → ℚ) (N i : ℕ) :
    List MouseEvent :=
  let eased := tween ((i : ℚ) / (N : ℚ))
  let px := sx + truncToInt (((x - sx : ℤ) : ℚ) * eased)
  let py := sy + truncToInt (((y - sy : ℤ) : ℚ) * eased)
  MouseEvent.move px py ::
    (if i ≠ N then [MouseEvent.sleep (duration / (N : ℚ))] else [])

def claimedTweenTrace (integerize : ℚ → ℤ) (sx sy x y : ℤ) (duration : ℚ)
    (tween : ℚ → ℚ) : List MouseEvent :=
  if duration ≤ 0 then
    [MouseEvent.move x y]
  else
    ((List.range (claimedFrameCount integerize duration + 1)).map
      (claimedFrame sx sy x y duration tween
        (claimedFrameCount integerize duration))).flatten

/-- For positive durations the code's frame count (truncation applied to
the clamped product) equals the spec-shaped `max(1, trunc(duration × 60))`. -/
lemma numSteps_eq_claimed (d : ℚ) (hd : 0 < d) :
    numSteps d = claimedFrameCount truncToInt d := by
  have h60 : 0 < d * 60 := by positivity
  unfold numSteps claimedFrameCount truncToInt
  rw [if_pos (le_trans (le_of_lt h60) (le_max_left _ _)), if_pos (le_of_lt h60)]
  rcases le_or_lt 1 (d * 60) with h | h
  · rw [max_eq_left h]
    have h1 : (1 : ℤ) ≤ ⌊d * 60⌋ := Int.le_floor.mpr (by exact_mod_cast h)
    rw [max_eq_right h1]
  · rw [max_eq_right (le_of_lt h)]
    have h0 : ⌊d * 60⌋ = 0 := by
      rw [Int.floor_eq_zero_iff]
      exact ⟨le_of_lt h60, h⟩
    rw [h0]
    norm_num

/-- C2 counterexample: at duration `1/40` second the code truncates
`1/40 × 60 = 1.5` to one step (two frames, one sleep), while the claim's
`round` formula predicts two steps (three frames, two sleeps), so the
trace differs from the claimed one. -/
theorem moveToWithTween_round_counterexample :
    moveToWithTween 0 0 100 100 (1/40) linear_tween ≠
      claimedTweenTrace roundHalfAwayFromZero 0 0 100 100 (1/40) linear_tween := by
  have hN : numSteps (1/40) = 1 := by
    norm_num [numSteps, truncToInt]
  have hM : claimedFrameCount roundHalfAwayFromZero (1/40) = 2 := by
    norm_num [claimedFrameCount, roundHalfAwayFromZero]
    rfl
  have hcode : moveToWithTween 0 0 100 100 (1/40) linear_tween =
      [MouseEvent.move 0 0, MouseEvent.sleep (1/40), MouseEvent.move 100 100] := by
    rw [moveToWithTween, if_neg (by norm_num), hN]
    norm_num [tweenFrame, sleepEvents, truncToInt, linear_tween,
      List.range_succ]
  have hclaim : claimedTweenTrace roundHalfAwayFromZero 0 0 100 100 (1/40)
        linear_tween =
      [MouseEvent.move 0 0, MouseEvent.sleep (1/80), MouseEvent.move 50 50,
        MouseEvent.sleep (1/80), MouseEvent.move 100 100] := by
    rw [claimedTweenTrace, if_neg (by norm_num), hM]
    norm_num [claimedFrame, truncToInt, linear_tween, List.range_succ]
  rw [hcode, hclaim]
  intro h
  have := congrArg List.length h
  simp at this

/-- C2 amended: `move_to_with_tween` behaves exactly as the claim states
once the frame-count formula is amended from `round(duration × 60)` to a
truncating cast: for duration ≤ 0 it performs exactly one immediate
absolute move to the target, otherwise it issues one absolute move for
each frame `i` in `0..=N` (`N = max(1, trunc(duration × 60))`) at the
interpolation of the eased progress `tween(i/N)` and sleeps `duration/N`
after every frame except the last. -/
theorem moveToWithTween_eq_claimed (sx sy x y : ℤ) (duration : ℚ)
    (tween : ℚ → ℚ) :
    moveToWithTween sx sy x y duration tween =
      claimedTweenTrace truncToInt sx sy x y duration tween := by
  unfold moveToWithTween claimedTweenTrace moveToTrace
  by_cases hd : duration ≤ 0
  · rw [if_pos hd, if_pos hd]
  · rw [if_neg hd, if_neg hd]
    push_neg at hd
    rw [← numSteps_eq_claimed duration hd]
    refine congrArg List.flatten (List.map_congr_left ?_)
    intro i hi
    unfold tweenFrame claimedFrame sleepEvents
    have hpos : 0 < numSteps duration := numSteps_pos duration
    have hlt : i < numSteps duration + 1 := List.mem_range.mp hi
    by_cases hiN : i < numSteps duration
    · have hdiv : 0 < duration / ((numSteps duration : ℕ) : ℚ) :=
        div_pos hd (by exact_mod_cast hpos)
      rw [if_pos hiN, if_pos hdiv, if_pos (Nat.ne_of_lt hiN)]
    · rw [if_neg hiN, if_neg (by omega : ¬ i ≠ numSteps duration)]

/-- `MoverConfig` from `mover-utils/src/lib.rs`: global configuration for
the library. `f64` fields are modelled over `ℚ`, `usize` over `ℕ`. -/
structure MoverConfig where
  pause : ℚ
  failsafe : Bool
  failsafe_points : List Point
  minimum_duration : ℚ
  minimum_sleep : ℚ
  log_screenshots : Bool
  screenshot_log_limit : Option ℕ
deriving DecidableEq, Repr

/-- `impl Default for MoverConfig` from `mover-utils/src/lib.rs`: note the
`failsafe_points` default is the two-element placeholder
`vec![Point::new(0, 0), Point::new(0, 0)]`. -/
def MoverConfig.default : MoverConfig where
  pause := 1/10
  failsafe := true
  failsafe_points := [Point.new 0 0, Point.new 0 0]
  minimum_duration := 1/10
  minimum_sleep := 1/20
  log_screenshots := false
  screenshot_log_limit := some 10

/-- `FailsafeManager` from `mover-utils/src/lib.rs`. The `last_check:
Instant` field is a wall-clock timestamp and is not modelled; no claim
under study mentions it. -/
structure FailsafeManager where
  config : MoverConfig
deriving DecidableEq, Repr

/-- `FailsafeManager::check` from `mover-utils/src/lib.rs`, with
`current_pos` the live pointer position the platform read returns: when
the failsafe flag is cleared it succeeds immediately (without reading the
position); when set it fails with `FailsafeTriggered` iff the position is
contained in the configured sentinel list. -/
def FailsafeManager.check (m : FailsafeManager) (current_pos : Point) :
    Except MoverError Unit :=
  if !m.config.failsafe then
    Except.ok ()
  else if m.config.failsafe_points.contains current_pos then
    Except.error (MoverError.FailsafeTriggered "Mouse moved to failsafe position")
  else
    Except.ok ()

/-- `FailsafeManager::update_failsafe_points` from
`mover-utils/src/lib.rs`: replaces the sentinel list with the four screen
corners computed from `screen_size`. -/
def FailsafeManager.update_failsafe_points (m : FailsafeManager)
    (screen_size : Size) : FailsafeManager :=
  { m with config := { m.config with failsafe_points := [
      Point.new 0 0,
      Point.new (screen_size.width - 1) 0,
      Point.new 0 (screen_size.height - 1),
      Point.new (screen_size.width - 1) (screen_size.height - 1)] } }

/-- C3: with the failsafe flag set, `check` returns `FailsafeTriggered`
exactly when the live pointer position equals one of the configured
sentinel points; a position different from every sentinel (in particular
one pixel away from each) succeeds; with the flag cleared, `check`
succeeds even when the position sits exactly on a sentinel. -/
theorem failsafe_check_characterization (m : FailsafeManager) (pos : Point) :
    (m.config.failsafe = true →
      (m.check pos =
          Except.error (MoverError.FailsafeTriggered "Mouse moved to failsafe position") ↔
        pos ∈ m.config.failsafe_points)) ∧
    (m.config.failsafe = true → pos ∉ m.config.failsafe_points →
      m.check pos = Except.ok ()) ∧
    (m.config.failsafe = false → m.check pos = Except.ok ()) := by
  unfold FailsafeManager.check
  refine ⟨fun hen => ?_, fun hen hmem => ?_, fun hdis => ?_⟩
  · rw [hen]
    by_cases hmem : pos ∈ m.config.failsafe_points
    · simp [List.elem_iff, hmem]
    · simp [List.elem_iff, hmem]
  · rw [hen]
    simp [List.elem_iff, hmem]
  · rw [hdis]
    simp

/-- C3 witness: with sentinel list `[(0,0)]` and the flag set, the pointer
at `(0,0)` triggers, the pointer one pixel away at `(1,0)` does not; with
the flag cleared the pointer at `(0,0)` succeeds. -/
theorem failsafe_check_witness :
    (FailsafeManager.check
        ⟨{ MoverConfig.default with failsafe_points := [Point.new 0 0] }⟩
        (Point.new 0 0) =
      Except.error (MoverError.FailsafeTriggered "Mouse moved to failsafe position")) ∧
    (FailsafeManager.check
        ⟨{ MoverConfig.default with failsafe_points := [Point.new 0 0] }⟩
        (Point.new 1 0) =
      Except.ok ()) ∧
    (FailsafeManager.check
        ⟨{ MoverConfig.default with
            failsafe := false,
            failsafe_points := [Point.new 0 0] }⟩
        (Point.new 0 0) =
      Except.ok ()) :=
  ⟨((failsafe_check_characterization
      ⟨{ MoverConfig.default with failsafe_points := [Point.new 0 0] }⟩
      (Point.new 0 0)).1 rfl).mpr (by simp),
   (failsafe_check_characterization
      ⟨{ MoverConfig.default with failsafe_points := [Point.new 0 0] }⟩
      (Point.new 1 0)).2.1 rfl (by decide),
   (failsafe_check_characterization
      ⟨{ MoverConfig.default with
          failsafe := false,
          failsafe_points := [Point.new 0 0] }⟩
      (Point.new 0 0)).2.2 rfl⟩

/-- C4 counterexample: the default sentinel list is the two-element
placeholder `[(0,0), (0,0)]`, not the four screen corners. -/
theorem default_failsafe_points_counterexample :
    MoverConfig.default.failsafe_points = [Point.new 0 0, Point.new 0 0] ∧
    MoverConfig.default.failsafe_points.length ≠ 4 :=
  ⟨rfl, by simp [MoverConfig.default]⟩

/-- C4 amended: the default sentinel list is the two-element placeholder
`[(0,0), (0,0)]` (with a source comment promising it will be set to the
actual corners), and `update_failsafe_points(size)` recomputes the list to
exactly the four points `(0,0)`, `(w−1,0)`, `(0,h−1)`, `(w−1,h−1)`. -/
theorem update_failsafe_points_corners (m : FailsafeManager) (s : Size) :
    MoverConfig.default.failsafe_points = [Point.new 0 0, Point.new 0 0] ∧
    (m.update_failsafe_points s).config.failsafe_points =
      [Point.new 0 0, Point.new (s.width - 1) 0, Point.new 0 (s.height - 1),
        Point.new (s.width - 1) (s.height - 1)] :=
  ⟨rfl, rfl⟩

/-- C9: `update_failsafe_points` changes only the sentinel list — the
failsafe flag and all remaining configuration fields are unchanged — and
the new list always has exactly four elements, for every input size
(including zero or negative dimensions). -/
theorem update_failsafe_points_frame (m : FailsafeManager) (s : Size) :
    (m.update_failsafe_points s).config.pause = m.config.pause ∧
    (m.update_failsafe_points s).config.failsafe = m.config.failsafe ∧
    (m.update_failsafe_points s).config.minimum_duration =
      m.config.minimum_duration ∧
    (m.update_failsafe_points s).config.minimum_sleep =
      m.config.minimum_sleep ∧
    (m.update_failsafe_points s).config.log_screenshots =
      m.config.log_screenshots ∧
    (m.update_failsafe_points s).config.screenshot_log_limit =
      m.config.screenshot_log_limit ∧
    (m.update_failsafe_points s).config.failsafe_points.length = 4 :=
  ⟨rfl, rfl, rfl, rfl, rfl, rfl, rfl⟩

/-- The `enigo::Key` codes targeted by `convert_key` in
`mover-keyboard/src/lib.rs`. -/
inductive Key where
  | Unicode (c : Char)
  | Return
  | Space
  | Tab
  | Escape
  | Backspace
  | Delete
  | Home
  | End
  | PageUp
  | PageDown
  | UpArrow
  | DownArrow
  | LeftArrow
  | RightArrow
  | F1
  | F2
  | F3
  | F4
  | F5
  | F6
  | F7
  | F8
  | F9
  | F10
  | F11
  | F12
  | Control
  | Alt
  | Shift
  | Meta
deriving DecidableEq, Repr

/-- Rust `str::to_lowercase` restricted to ASCII case mapping (every name
in the key table is ASCII, so the Unicode special cases of the Rust
function are not exercised by the claims). -/
def toLowerAscii (s : String) : String :=
  String.mk (s.data.map fun c =>
    if 65 ≤ c.toNat ∧ c.toNat ≤ 90 then Char.ofNat (c.toNat + 32) else c)

/-- The single-character branches of the `convert_key` match: lowercase
letters `a`&ndash;`z`, digits `0`&ndash;`9`, and the punctuation set.  The
five punctuation characters written with `Char.ofNat` are, in order of
appearance: `Char.ofNat 123` and `Char.ofNat 125` the curly braces,
`Char.ofNat 39` the apostrophe, `Char.ofNat 34` the double quote and
`Char.ofNat 96` the grave accent. -/
def isTableChar (c : Char) : Bool :=
  (decide (97 ≤ c.toNat) && decide (c.toNat ≤ 122)) ||
  (decide (48 ≤ c.toNat) && decide (c.toNat ≤ 57)) ||
  ['!', '@', '#', '$', '%', '^', '&', '*', '(', ')', '-', '_', '=', '+',
    '[', ']', Char.ofNat 123, Char.ofNat 125, '\\', '|', ';', ':',
    Char.ofNat 39, Char.ofNat 34, ',', '.', '/', '?', Char.ofNat 96,
    '~'].contains c

/-- The match of `convert_key` from `mover-keyboard/src/lib.rs`, applied
to the already-lowercased name.  The Rust match lists the single-character
letter/digit/punctuation branches first; since every named-key pattern has
at least two characters the branches are disjoint and the order is
immaterial, so the single-character branches are gathered at the end via
`isTableChar` (each returns `Key::Unicode` of its own character, which is
what `key_lower.chars().next().unwrap()` evaluates to there). -/
def key_table (key_lower : String) : Option Key :=
  match key_lower with
  | "enter" | "return" => some Key.Return
  | "space" => some Key.Space
  | "tab" => some Key.Tab
  | "escape" | "esc" => some Key.Escape
  | "backspace" => some Key.Backspace
  | "delete" | "del" => some Key.Delete
  | "home" => some Key.Home
  | "end" => some Key.End
  | "pageup" | "pgup" => some Key.PageUp
  | "pagedown" | "pgdn" => some Key.PageDown
  | "up" => some Key.UpArrow
  | "down" => some Key.DownArrow
  | "left" => some Key.LeftArrow
  | "right" => some Key.RightArrow
  | "f1" => some Key.F1
  | "f2" => some Key.F2
  | "f3" => some Key.F3
  | "f4" => some Key.F4
  | "f5" => some Key.F5
  | "f6" => some Key.F6
  | "f7" => some Key.F7
  | "f8" => some Key.F8
  | "f9" => some Key.F9
  | "f10" => some Key.F10
  | "f11" => some Key.F11
  | "f12" => some Key.F12
  | "ctrl" | "control" => some Key.Control
  | "alt" => some Key.Alt
  | "shift" => some Key.Shift
  | "meta" | "win" | "command" => some Key.Meta
  | s =>
    match s.data with
    | [c] => if isTableChar c then some (Key.Unicode c) else none
    | _ => none

/-- Decidable equality for `Except`, so that concrete runs of the
fallible operations can be settled by `decide`. -/
instance {ε α : Type} [DecidableEq ε] [DecidableEq α] :
    DecidableEq (Except ε α) := fun a b =>
  match a, b with
  | .ok x, .ok y =>
    if h : x = y then .isTrue (congrArg Except.ok h)
    else .isFalse (fun hh => h (Except.ok.inj hh))
  | .error x, .error y =>
    if h : x = y then .isTrue (congrArg Except.error h)
    else .isFalse (fun hh => h (Except.error.inj hh))
  | .ok _, .error _ => .isFalse (fun hh => Except.noConfusion hh)
  | .error _, .ok _ => .isFalse (fun hh => Except.noConfusion hh)

/-- `convert_key` from `mover-keyboard/src/lib.rs`: lowercases the name
(`key.to_lowercase()`), resolves it through the match, and on the
fall-through arm returns `UnsupportedOperation` carrying the original
(uncased) string. -/
def convert_key (key : String) : Except MoverError Key :=
  match key_table (toLowerAscii key) with
  | some k => Except.ok k
  | none => Except.error (MoverError.PlatformError
      (PlatformError.UnsupportedOperation ("Unsupported key: " ++ key)))

/-- C5: `convert_key` is case-insensitive — any two names with the same
lowercasing resolve to the same key code, in particular
`convert_key "ENTER" = convert_key "enter" = convert_key "Enter"` — and
every name whose lowercasing falls outside the fixed table yields an
`UnsupportedOperation` error carrying the original string (`convert_key`
is a total Lean function, so no input panics or silently falls back). -/
theorem convert_key_case_insensitive_total :
    (∀ s t : String, toLowerAscii s = toLowerAscii t →
      ∀ k : Key, (convert_key s = Except.ok k ↔ convert_key t = Except.ok k)) ∧
    (convert_key "ENTER" = convert_key "enter" ∧
      convert_key "enter" = convert_key "Enter") ∧
    (∀ s : String, key_table (toLowerAscii s) = none →
      convert_key s = Except.error (MoverError.PlatformError
        (PlatformError.UnsupportedOperation ("Unsupported key: " ++ s)))) := by
  refine ⟨fun s t h k => ?_, ⟨by decide, by decide⟩, fun s h => ?_⟩
  · unfold convert_key
    rw [h]
    cases key_table (toLowerAscii t) <;> simp
  · unfold convert_key
    rw [h]

/-- C5 witness: `ENTER` and `Enter` share a lowercasing and resolve to the
same key; `foobar` is outside the table and yields `UnsupportedOperation`
carrying the original string. -/
theorem convert_key_case_insensitive_total_witness :
    toLowerAscii "ENTER" = toLowerAscii "Enter" ∧
    (convert_key "ENTER" = Except.ok Key.Return ↔
      convert_key "Enter" = Except.ok Key.Return) ∧
    key_table (toLowerAscii "foobar") = none ∧
    convert_key "foobar" = Except.error (MoverError.PlatformError
      (PlatformError.UnsupportedOperation ("Unsupported key: " ++ "foobar"))) :=
  ⟨by decide,
   convert_key_case_insensitive_total.1 "ENTER" "Enter" (by decide) Key.Return,
   by decide,
   convert_key_case_insensitive_total.2.2 "foobar" (by decide)⟩

/-- C10: every single-letter name resolves to the lowercase Unicode
character regardless of the input's case — for each letter `c`, both the
one-letter name `c` and its uppercase form resolve to `Key::Unicode c` —
and the resolved character is never uppercase (so key-name resolution
cannot produce an uppercase character). -/
theorem convert_key_single_letter_lowercase :
    List.Forall (fun c : Char =>
        convert_key (String.mk [c]) = Except.ok (Key.Unicode c) ∧
        convert_key (String.mk [Char.ofNat (c.toNat - 32)]) =
          Except.ok (Key.Unicode c) ∧
        (Char.ofNat (c.toNat - 32)).isUpper = true ∧
        c.isUpper = false)
      "abcdefghijklmnopqrstuvwxyz".data ∧
    convert_key "A" = Except.ok (Key.Unicode 'a') := by
  constructor
  · decide
  · decide

/-- `Mouse::convert_button` from `mover-mouse/src/lib.rs`. -/
def convert_button (button : MouseButton) : Except MoverError EnigoButton :=
  match button with
  | MouseButton.Left => Except.ok EnigoButton.Left
  | MouseButton.Right => Except.ok EnigoButton.Right
  | MouseButton.Middle => Except.ok EnigoButton.Middle
  | MouseButton.Primary => Except.ok EnigoButton.Left
  | MouseButton.Secondary => Except.ok EnigoButton.Right
  | MouseButton.Button4 => Except.ok EnigoButton.Left
  | MouseButton.Button5 => Except.ok EnigoButton.Right
  | MouseButton.Button6 => Except.ok EnigoButton.Left
  | MouseButton.Button7 => Except.ok EnigoButton.Right

/-- C6: `convert_button` succeeds on all nine `MouseButton` variants with
no unhandled or error branch: `Left`, `Middle`, `Right` map to
themselves; `Primary` to `Left` and `Secondary` to `Right`; `Button4` and
`Button6` fall back to `Left`; `Button5` and `Button7` fall back to
`Right`. -/
theorem convert_button_total :
    convert_button MouseButton.Left = Except.ok EnigoButton.Left ∧
    convert_button MouseButton.Middle = Except.ok EnigoButton.Middle ∧
    convert_button MouseButton.Right = Except.ok EnigoButton.Right ∧
    convert_button MouseButton.Primary = Except.ok EnigoButton.Left ∧
    convert_button MouseButton.Secondary = Except.ok EnigoButton.Right ∧
    convert_button MouseButton.Button4 = Except.ok EnigoButton.Left ∧
    convert_button MouseButton.Button5 = Except.ok EnigoButton.Right ∧
    convert_button MouseButton.Button6 = Except.ok EnigoButton.Left ∧
    convert_button MouseButton.Button7 = Except.ok EnigoButton.Right := by
  decide

/-- Rust `Duration::from_secs_f64`, which panics when the argument is
negative, overflows `Duration` (reaches `2^64` seconds — `Duration`
stores the whole seconds in a `u64`, and at that magnitude f64 values are
exact multiples of 2048 s, so no rounding carry complicates the bound),
or is not finite (NaN and the infinities are the one case not
representable over ℚ; of these only `+∞` reaches the conversion, and it
panics like the overflow branch modelled here).  Each panic is modelled
as an `error` branch carrying its message. -/
def duration_from_secs_f64 (secs : ℚ) : Except String ℚ :=
  if secs < 0 then
    Except.error "can not convert float seconds to Duration: value is negative"
  else if 2^64 ≤ secs then
    Except.error "can not convert float seconds to Duration: value is either too big or NaN"
  else
    Except.ok secs

/-- `Mouse::sleep` (`mover-mouse/src/lib.rs`) and `functions::sleep`
(`mover-utils/src/lib.rs`), which have the identical body
`if seconds > 0.0 { thread::sleep(Duration::from_secs_f64(seconds)) }`:
returns the performed thread sleeps, threading the possible
`from_secs_f64` panic through `Except`. -/
def sleep_run (seconds : ℚ) : Except String (List MouseEvent) :=
  if seconds > 0 then
    (duration_from_secs_f64 seconds).map (fun d => [MouseEvent.sleep d])
  else
    Except.ok []

/-- C8 counterexample: `sleep` is not total for every f64 argument — at
`seconds = 1e20`, a finite f64 value exactly representable over ℚ, the
`seconds > 0.0` guard passes and `Duration::from_secs_f64` panics on
overflow (`1e20` exceeds the `2^64`-second capacity of `Duration`). -/
theorem sleep_overflow_counterexample :
    sleep_run (10^20) = Except.error
      "can not convert float seconds to Duration: value is either too big or NaN" := by
  rw [sleep_run, if_pos (by norm_num), duration_from_secs_f64,
    if_neg (by norm_num), if_pos (by norm_num)]
  rfl

/-- C8 amended: for every `seconds ≤ 0` (negative values, negative zero
and zero alike) `sleep` returns immediately, performing no sleep and
constructing no `Duration`, so the panic that `Duration::from_secs_f64`
raises on negative input is unreachable; totality, however, holds only
below the `Duration` overflow bound — for every `seconds < 2^64` the call
returns without panicking, while larger finite arguments reach the
overflow panic. -/
theorem sleep_total_no_panic :
    (∀ s : ℚ, s < 2^64 → sleep_run s = Except.ok (sleepEvents s)) ∧
    (∀ s : ℚ, s ≤ 0 → sleep_run s = Except.ok []) := by
  constructor
  · intro s hs
    unfold sleep_run sleepEvents duration_from_secs_f64
    by_cases h : s > 0
    · rw [if_pos h, if_pos h, if_neg (by linarith : ¬ s < 0),
        if_neg (by linarith : ¬ (2:ℚ)^64 ≤ s)]
      rfl
    · rw [if_neg h, if_neg h]
  · intro s hs
    unfold sleep_run
    rw [if_neg (by linarith : ¬ s > 0)]

/-- C8 witness: at `1` (positive, below the overflow bound) the call
performs exactly the guarded sleep, and at `-1` (a negative input) it
returns immediately with no sleep performed and no panic. -/
theorem sleep_total_no_panic_witness :
    ((1 : ℚ) < 2^64 ∧ sleep_run 1 = Except.ok (sleepEvents 1)) ∧
    ((-1 : ℚ) ≤ 0 ∧ sleep_run (-1) = Except.ok []) :=
  ⟨⟨by norm_num, sleep_total_no_panic.1 1 (by norm_num)⟩,
   ⟨by norm_num, sleep_total_no_panic.2 (-1) (by norm_num)⟩⟩

/-- `RecordedAction` from `mover-utils/src/lib.rs`.  The Rust `MouseDrag`
fields `from`/`to` are named `dragFrom`/`dragTo` here because `from` is a
Lean keyword. -/
inductive RecordedAction where
  | MouseMove (x y : ℤ) (duration : ℚ)
  | MouseClick (x y : ℤ) (button : MouseButton)
  | MouseDrag (dragFrom dragTo : Point) (button : MouseButton)
  | KeyPress (key : String)
  | KeyType (text : String)
  | Screenshot (path : String)
  | Wait (duration : ℚ)
deriving DecidableEq, Repr

/-- `ActionRecorder` from `mover-utils/src/lib.rs`.  The `start_time:
Instant` field is a wall-clock timestamp used only by `get_total_time` and
is not modelled. -/
structure ActionRecorder where
  actions : List RecordedAction
deriving DecidableEq, Repr

/-- `ActionRecorder::new`. -/
def ActionRecorder.new : ActionRecorder := ⟨[]⟩

/-- `ActionRecorder::record_mouse_move`: appends one entry. -/
def ActionRecorder.record_mouse_move (r : ActionRecorder) (x y : ℤ)
    (duration : ℚ) : ActionRecorder :=
  ⟨r.actions ++ [RecordedAction.MouseMove x y duration]⟩

/-- `ActionRecorder::record_mouse_click`: appends one entry. -/
def ActionRecorder.record_mouse_click (r : ActionRecorder) (x y : ℤ)
    (button : MouseButton) : ActionRecorder :=
  ⟨r.actions ++ [RecordedAction.MouseClick x y button]⟩

/-- `ActionRecorder::record_mouse_drag`: appends one entry. -/
def ActionRecorder.record_mouse_drag (r : ActionRecorder)
    (dragFrom dragTo : Point) (button : MouseButton) : ActionRecorder :=
  ⟨r.actions ++ [RecordedAction.MouseDrag dragFrom dragTo button]⟩

/-- `ActionRecorder::record_key_press`: appends one entry. -/
def ActionRecorder.record_key_press (r : ActionRecorder) (key : String) :
    ActionRecorder :=
  ⟨r.actions ++ [RecordedAction.KeyPress key]⟩

/-- `ActionRecorder::record_key_type`: appends one entry. -/
def ActionRecorder.record_key_type (r : ActionRecorder) (text : String) :
    ActionRecorder :=
  ⟨r.actions ++ [RecordedAction.KeyType text]⟩

/-- `ActionRecorder::record_screenshot`: appends one entry. -/
def ActionRecorder.record_screenshot (r : ActionRecorder) (path : String) :
    ActionRecorder :=
  ⟨r.actions ++ [RecordedAction.Screenshot path]⟩

/-- `ActionRecorder::record_wait`: appends one entry. -/
def ActionRecorder.record_wait (r : ActionRecorder) (duration : ℚ) :
    ActionRecorder :=
  ⟨r.actions ++ [RecordedAction.Wait duration]⟩

/-- A JSON document tree, the serialization target of
`ActionRecorder::export_json` (`serde_json::to_string_pretty` renders this
tree as text; the claims are settled at the level of the tree, whose
textual rendering and parsing are the external `serde_json` collaborator,
not repository code). -/
inductive Json where
  | null
  | bool (b : Bool)
  | num (q : ℚ)
  | str (s : String)
  | arr (items : List Json)
  | obj (fields : List (String × Json))

/-- The derived `serde::Serialize` of `Point` (a struct with fields `x`,
`y`). -/
def Point.toJson (p : Point) : Json :=
  Json.obj [("x", Json.num p.x), ("y", Json.num p.y)]

/-- The derived `serde::Serialize` of `MouseButton` (unit enum variants
serialize as their names). -/
def MouseButton.toJson : MouseButton → Json
  | MouseButton.Left => Json.str "Left"
  | MouseButton.Middle => Json.str "Middle"
  | MouseButton.Right => Json.str "Right"
  | MouseButton.Primary => Json.str "Primary"
  | MouseButton.Secondary => Json.str "Secondary"
  | MouseButton.Button4 => Json.str "Button4"
  | MouseButton.Button5 => Json.str "Button5"
  | MouseButton.Button6 => Json.str "Button6"
  | MouseButton.Button7 => Json.str "Button7"

/-- The derived `serde::Serialize` of `RecordedAction`
(`mover-utils/src/lib.rs`): an externally tagged enum, each variant an
object keyed by the variant name holding its named fields in order. -/
def RecordedAction.toJson : RecordedAction → Json
  | RecordedAction.MouseMove x y d =>
    Json.obj [("MouseMove", Json.obj
      [("x", Json.num x), ("y", Json.num y), ("duration", Json.num d)])]
  | RecordedAction.MouseClick x y b =>
    Json.obj [("MouseClick", Json.obj
      [("x", Json.num x), ("y", Json.num y), ("button", b.toJson)])]
  | RecordedAction.MouseDrag f t b =>
    Json.obj [("MouseDrag", Json.obj
      [("from", f.toJson), ("to", t.toJson), ("button", b.toJson)])]
  | RecordedAction.KeyPress k =>
    Json.obj [("KeyPress", Json.obj [("key", Json.str k)])]
  | RecordedAction.KeyType t =>
    Json.obj [("KeyType", Json.obj [("text", Json.str t)])]
  | RecordedAction.Screenshot p =>
    Json.obj [("Screenshot", Json.obj [("path", Json.str p)])]
  | RecordedAction.Wait d =>
    Json.obj [("Wait", Json.obj [("duration", Json.num d)])]

/-- `ActionRecorder::export_json` from `mover-utils/src/lib.rs`:
serializes the full ordered action sequence (a `Vec`, hence a JSON
array).  For the action data of this recorder serialization cannot fail
(every embedded string is already valid UTF-8), so the `Err` branch of
`serde_json::to_string_pretty` is unreachable and the result is always
`ok`. -/
def ActionRecorder.export_json (r : ActionRecorder) :
    Except MoverError Json :=
  Except.ok (Json.arr (r.actions.map RecordedAction.toJson))

/-- Reads a JSON number back as an integer field (the derived deserializer
accepts an integral number for an `i32` field). -/
def Json.asInt : Json → Option ℤ
  | Json.num q => if q.den = 1 then some q.num else none
  | _ => none

/-- Modelled from the spec: the re-import half of the round-trip law.  The
repository derives `serde::Deserialize` for `RecordedAction`, `Point` and
`MouseButton` (`mover-utils/src/lib.rs`, `mover-core/src/types.rs`) but
ships no explicit import function; this reads the derived externally
tagged format back.  Derived `MouseButton` deserialization. -/
def MouseButton.fromJson : Json → Option MouseButton
  | Json.str "Left" => some MouseButton.Left
  | Json.str "Middle" => some MouseButton.Middle
  | Json.str "Right" => some MouseButton.Right
  | Json.str "Primary" => some MouseButton.Primary
  | Json.str "Secondary" => some MouseButton.Secondary
  | Json.str "Button4" => some MouseButton.Button4
  | Json.str "Button5" => some MouseButton.Button5
  | Json.str "Button6" => some MouseButton.Button6
  | Json.str "Button7" => some MouseButton.Button7
  | _ => none

/-- Modelled from the spec: derived `Point` deserialization (see
`MouseButton.fromJson`). -/
def Point.fromJson : Json → Option Point
  | Json.obj [("x", jx), ("y", jy)] => do
    let x ← jx.asInt
    let y ← jy.asInt
    pure (Point.new x y)
  | _ => none

/-- Modelled from the spec: derived `RecordedAction` deserialization of
the externally tagged form (see `MouseButton.fromJson`). -/
def RecordedAction.fromJson : Json → Option RecordedAction
  | Json.obj [("MouseMove", Json.obj
      [("x", jx), ("y", jy), ("duration", Json.num d)])] => do
    let x ← jx.asInt
    let y ← jy.asInt
    pure (RecordedAction.MouseMove x y d)
  | Json.obj [("MouseClick", Json.obj
      [("x", jx), ("y", jy), ("button", jb)])] => do
    let x ← jx.asInt
    let y ← jy.asInt
    let b ← MouseButton.fromJson jb
    pure (RecordedAction.MouseClick x y b)
  | Json.obj [("MouseDrag", Json.obj
      [("from", jf), ("to", jt), ("button", jb)])] => do
    let f ← Point.fromJson jf
    let t ← Point.fromJson jt
    let b ← MouseButton.fromJson jb
    pure (RecordedAction.MouseDrag f t b)
  | Json.obj [("KeyPress", Json.obj [("key", Json.str k)])] =>
    some (RecordedAction.KeyPress k)
  | Json.obj [("KeyType", Json.obj [("text", Json.str t)])] =>
    some (RecordedAction.KeyType t)
  | Json.obj [("Screenshot", Json.obj [("path", Json.str p)])] =>
    some (RecordedAction.Screenshot p)
  | Json.obj [("Wait", Json.obj [("duration", Json.num d)])] =>
    some (RecordedAction.Wait d)
  | _ => none

/-- Modelled from the spec: re-importing an exported log, i.e. reading the
JSON array element-wise (any undecodable element fails the whole
import, as `serde_json::from_str` would). -/
def importActions : Json → Option (List RecordedAction)
  | Json.arr items => items.mapM RecordedAction.fromJson
  | _ => none

/-- Deserializing the serialization of a single record restores it. -/
lemma fromJson_toJson (a : RecordedAction) :
    RecordedAction.fromJson a.toJson = some a := by
  cases a with
  | MouseMove x y d => rfl
  | MouseClick x y b => cases b <;> rfl
  | MouseDrag f t b =>
    cases f
    cases t
    cases b <;> rfl
  | KeyPress k => rfl
  | KeyType t => rfl
  | Screenshot p => rfl
  | Wait d => rfl

/-- Element-wise deserialization of a serialized action list restores the
list. -/
lemma mapM_fromJson_map (l : List RecordedAction) :
    (l.map RecordedAction.toJson).mapM RecordedAction.fromJson = some l := by
  induction l with
  | nil => rfl
  | cons a l ih =>
    rw [List.map_cons, List.mapM_cons, fromJson_toJson a, ih]
    rfl

/-- C7: re-importing an exported action log reproduces the identical
ordered sequence of records with identical fields (round-trip law), and
each `record_*` call appends exactly one entry (being a total Lean
function, it cannot fail). -/
theorem recorder_roundtrip_and_append :
    (∀ r : ActionRecorder, ∀ j : Json,
      r.export_json = Except.ok j → importActions j = some r.actions) ∧
    (∀ (r : ActionRecorder) (x y : ℤ) (d : ℚ),
      (r.record_mouse_move x y d).actions =
        r.actions ++ [RecordedAction.MouseMove x y d]) ∧
    (∀ (r : ActionRecorder) (x y : ℤ) (b : MouseButton),
      (r.record_mouse_click x y b).actions =
        r.actions ++ [RecordedAction.MouseClick x y b]) ∧
    (∀ (r : ActionRecorder) (f t : Point) (b : MouseButton),
      (r.record_mouse_drag f t b).actions =
        r.actions ++ [RecordedAction.MouseDrag f t b]) ∧
    (∀ (r : ActionRecorder) (k : String),
      (r.record_key_press k).actions =
        r.actions ++ [RecordedAction.KeyPress k]) ∧
    (∀ (r : ActionRecorder) (t : String),
      (r.record_key_type t).actions =
        r.actions ++ [RecordedAction.KeyType t]) ∧
    (∀ (r : ActionRecorder) (p : String),
      (r.record_screenshot p).actions =
        r.actions ++ [RecordedAction.Screenshot p]) ∧
    (∀ (r : ActionRecorder) (d : ℚ),
      (r.record_wait d).actions = r.actions ++ [RecordedAction.Wait d]) := by
  refine ⟨fun r j hj => ?_, fun _ _ _ _ => rfl, fun _ _ _ _ => rfl,
    fun _ _ _ _ => rfl, fun _ _ => rfl, fun _ _ => rfl, fun _ _ => rfl,
    fun _ _ => rfl⟩
  have hj' : j = Json.arr (r.actions.map RecordedAction.toJson) := by
    cases hj
    rfl
  subst hj'
  simpa [importActions] using mapM_fromJson_map r.actions

/-- C7 witness: a concrete two-record log exports to a JSON array that
imports back to the identical sequence. -/
theorem recorder_roundtrip_witness :
    importActions (Json.arr ((ActionRecorder.mk
        [RecordedAction.MouseMove 1 2 (1/2),
          RecordedAction.KeyPress "a"]).actions.map RecordedAction.toJson)) =
      some [RecordedAction.MouseMove 1 2 (1/2), RecordedAction.KeyPress "a"] :=
  recorder_roundtrip_and_append.1
    (ActionRecorder.mk
      [RecordedAction.MouseMove 1 2 (1/2), RecordedAction.KeyPress "a"])
    (Json.arr ((ActionRecorder.mk
      [RecordedAction.MouseMove 1 2 (1/2),
        RecordedAction.KeyPress "a"]).actions.map RecordedAction.toJson))
    rfl

end Mover
